import Mathlib

/-!
# Verification of the table-stakes query-processing pipeline

A shallow embedding of the core pipeline of the `table-stakes` repository:
the SQL synthesizer with its deterministic enrollment override
(`generateSQLFromNaturalLanguage`, `handleEnrollmentQuery`), the intent
classifier (`determineResultType`), the visualization synthesizer
(`generateVisualizationFromData`) with its fallback heuristic
(`fallbackVisualization`), the table formatter (`formatForTable`), the
PostgreSQL connector's lifecycle operations, and the orchestrator
(`processQuery`) with its error sanitization.

Effectful collaborators (the generative completion service, the database
driver) are modelled as explicit outcome parameters; JavaScript `Date`
arithmetic is modelled over a Gregorian calendar with the epoch-day
normalization that `Date.prototype.setDate` / `setMonth` perform.
-/

namespace TableStakes

/-! ## JavaScript string primitives -/

/-- `listStarts sub l` is true when `sub` is an initial segment of `l`. -/
def listStarts : List Char → List Char → Bool
  | [], _ => true
  | _ :: _, [] => false
  | a :: as, b :: bs => a == b && listStarts as bs

/-- `listInfix sub l` is true when `sub` occurs contiguously inside `l`. -/
def listInfix : List Char → List Char → Bool
  | sub, [] => listStarts sub []
  | sub, b :: bs => listStarts sub (b :: bs) || listInfix sub bs

/-- Models JavaScript `String.prototype.includes`. -/
def strContains (s sub : String) : Bool :=
  listInfix sub.data s.data

/-- Models JavaScript `String.prototype.toLowerCase` (ASCII case folding,
which is all the pipeline's keyword matching relies on). -/
def jsToLower (s : String) : String :=
  ⟨s.data.map Char.toLower⟩

/-- Models `String.prototype.trim` (and Lean's `String.trim`) by dropping
whitespace from both ends, implemented over the character list so that the
kernel can evaluate it. -/
def jsTrim (s : String) : String :=
  ⟨((s.data.dropWhile Char.isWhitespace).reverse.dropWhile Char.isWhitespace).reverse⟩

/-- JavaScript `a || b` on an optional string: `undefined` and the empty
string are falsy and select the default. -/
def jsStrOr (o : Option String) (dflt : String) : String :=
  match o with
  | some s => if s.isEmpty then dflt else s
  | none => dflt

/-- JavaScript falsiness of an optional string (`undefined`, `null` and
`""` are falsy). -/
def jsFalsyStr (o : Option String) : Bool :=
  match o with
  | some s => s.isEmpty
  | none => true

/-! ## Data model (`src/lib/database/interface.ts`, `src/lib/result-formatter.ts`) -/

/-- A database value as carried by a result row. -/
inductive Value where
  | vNull
  | vNum (n : Int)
  | vStr (s : String)
  | vBool (b : Bool)
  deriving DecidableEq, Repr

/-- One result row: a record mapping column names to values. -/
abbrev Row := List (String × Value)

/-- `QueryResult` from `interface.ts`. -/
structure QueryResult where
  columns : List String
  rows : List Row
  deriving DecidableEq, Repr

/-- `ColumnSchema` from `interface.ts`. -/
structure ColumnSchema where
  name : String
  dataType : String
  deriving DecidableEq, Repr

/-- `TableSchema` from `interface.ts`. -/
structure TableSchema where
  name : String
  columns : List ColumnSchema
  deriving DecidableEq, Repr

/-- `DatabaseSchema` from `interface.ts`. -/
structure DatabaseSchema where
  tables : List TableSchema
  deriving DecidableEq, Repr

/-- `TableResult` from `result-formatter.ts`. -/
structure TableResult where
  columns : List String
  rows : List Row
  deriving DecidableEq, Repr

/-- `SeriesConfig` from `result-formatter.ts`. -/
structure SeriesConfig where
  dataKey : String
  name : String
  color : String
  type : Option String := none
  deriving DecidableEq, Repr

/-- `GraphResult` from `result-formatter.ts`; optional TypeScript fields are
`Option`s, with `none` for a field left `undefined`. -/
structure GraphResult where
  chartType : String
  title : String
  subtitle : Option String := none
  xAxis : String
  yAxis : String
  xAxisKey : Option String := none
  labels : Option (List String) := none
  values : Option (List Value) := none
  series : Option (List SeriesConfig) := none
  processedData : Option (List Row) := none
  rawData : Option (List Row) := none
  insights : Option String := none
  recommendedFilters : Option (List String) := none
  deriving DecidableEq, Repr

/-- `formatForTable` from `result-formatter.ts`: a pass-through view. -/
def formatForTable (queryResult : QueryResult) : TableResult :=
  { columns := queryResult.columns, rows := queryResult.rows }

/-! ## JavaScript `Date` model

`handleEnrollmentQuery` manipulates dates through `setDate` and `setMonth`,
both of which normalize out-of-range components by counting days on the
proleptic Gregorian calendar. We model a date as a calendar triple and
implement the civil-from-days / days-from-civil conversions with floored
division, which makes the JavaScript normalization a one-liner. -/

/-- A calendar date; `month` is 1-based (January = 1).
JavaScript `getMonth()` is `month - 1`. -/
structure Date where
  year : Int
  month : Int
  day : Int
  deriving DecidableEq, Repr

/-- Days since 1970-01-01 of the (possibly denormalized) civil triple
`(y, m, d)`; month and day overflow are normalized exactly as
JavaScript `Date.UTC(y, m - 1, d)` does. -/
def civilToDays (y m d : Int) : Int :=
  let y2 := y + Int.fdiv (m - 3) 12
  let m2 := Int.fmod (m - 3) 12
  let era := Int.fdiv y2 400
  let yoe := y2 - era * 400
  let doy := Int.fdiv (153 * m2 + 2) 5 + d - 1
  let doe := yoe * 365 + Int.fdiv yoe 4 - Int.fdiv yoe 100 + doy
  era * 146097 + doe - 719468

/-- The normalized calendar date lying `z` days after 1970-01-01. -/
def daysToDate (z : Int) : Date :=
  let z2 := z + 719468
  let era := Int.fdiv z2 146097
  let doe := z2 - era * 146097
  let yoe := Int.fdiv (doe - Int.fdiv doe 1460 + Int.fdiv doe 36524 - Int.fdiv doe 146096) 365
  let y := yoe + era * 400
  let doy := doe - (365 * yoe + Int.fdiv yoe 4 - Int.fdiv yoe 100)
  let mp := Int.fdiv (5 * doy + 2) 153
  let d := doy - Int.fdiv (153 * mp + 2) 5 + 1
  let m := mp + (if mp < 10 then 3 else -9)
  { year := y + (if m ≤ 2 then 1 else 0), month := m, day := d }

def Date.toEpochDays (dt : Date) : Int :=
  civilToDays dt.year dt.month dt.day

/-- The date `n` days after `dt` (negative `n` goes backwards). -/
def Date.addDays (dt : Date) (n : Int) : Date :=
  daysToDate (dt.toEpochDays + n)

/-- Models `d.setDate(k)`: keep year and month, set the day-of-month to `k`
and normalize. `d.setDate(d.getDate() - 7)` is `jsSetDate dt (dt.day - 7)`. -/
def jsSetDate (dt : Date) (k : Int) : Date :=
  daysToDate (civilToDays dt.year dt.month k)

/-- Models `d.setMonth(m0)` for the 0-based JavaScript month `m0 = m - 1`:
keep year and day-of-month, set the month and normalize.
`d.setMonth(d.getMonth() - 1)` is `jsSetMonth dt (dt.month - 1)`. -/
def jsSetMonth (dt : Date) (m : Int) : Date :=
  daysToDate (civilToDays dt.year m dt.day)

/-- Two-digit zero padding of a month or day component. -/
def pad2 (n : Int) : String :=
  if n < 10 then "0" ++ toString n else toString n

/-- Models `date.toISOString().split('T')[0]` for four-digit years:
the `YYYY-MM-DD` rendering used throughout the enrollment handler. -/
def formatDate (dt : Date) : String :=
  toString dt.year ++ "-" ++ pad2 dt.month ++ "-" ++ pad2 dt.day

/-! ## SQL Synthesizer (`src/lib/openai.ts`) -/

/-- `formatSchemaForPrompt` from `openai.ts`. -/
def formatSchemaForPrompt (schema : DatabaseSchema) : String :=
  String.intercalate "\n\n" (schema.tables.map (fun table =>
    "Table: " ++ table.name ++ "\nColumns: " ++
      String.intercalate ", " (table.columns.map
        (fun col => col.name ++ " (" ++ col.dataType ++ ")"))))

/-- The exact SQL template string built (and trimmed) at the end of
`handleEnrollmentQuery`, as a function of the interpolated pieces. -/
def enrollmentSQLTemplate (startDate todayStr activeClause : String) : String :=
  jsTrim ("\n    SELECT * FROM enrollments \n    WHERE enrollment_date >= '"
    ++ startDate ++ "' \n    AND enrollment_date <= '" ++ todayStr
    ++ "'\n    " ++ activeClause
    ++ "\n    ORDER BY enrollment_date DESC\n  ")

/-- The `status = 'active'` clause appended when the query mentions
"active" (from `handleEnrollmentQuery`). -/
def activeClause (query : String) : String :=
  if strContains (jsToLower query) "active" then "AND status = 'active'" else ""

/-- `handleEnrollmentQuery` from `openai.ts`: the deterministic override
producing the enrollment SQL directly from the current date. -/
def handleEnrollmentQuery (query : String) (today : Date) : String :=
  let formattedLastWeek := formatDate (jsSetDate today (today.day - 7))
  let formattedLastMonth := formatDate (jsSetMonth today (today.month - 1))
  let formattedLastQuarter := formatDate (jsSetMonth today (today.month - 3))
  let formattedToday := formatDate today
  let startDate :=
    if strContains (jsToLower query) "month" then formattedLastMonth
    else if strContains (jsToLower query) "quarter" then formattedLastQuarter
    else formattedLastWeek
  enrollmentSQLTemplate startDate formattedToday (activeClause query)

/-- Models the two regex replacements stripping a markdown code fence from
the completion service's SQL answer (`/^\x60\x60\x60sql\s*/i` then
`/\s*\x60\x60\x60$/i`), over the character list. -/
def stripSQLMarkdown (sql : String) : String :=
  let s1 : String :=
    if listStarts "```sql".data (jsToLower sql).data then
      ⟨(sql.data.drop 6).dropWhile Char.isWhitespace⟩
    else sql
  if listStarts "```".data.reverse s1.data.reverse then
    ⟨((s1.data.reverse.drop 3).dropWhile Char.isWhitespace).reverse⟩
  else s1

/-- The enrollment-override guard at the top of
`generateSQLFromNaturalLanguage`. -/
def isEnrollmentOverride (query : String) : Bool :=
  strContains (jsToLower query) "enrollment" &&
    (strContains (jsToLower query) "week" || strContains (jsToLower query) "month" ||
      strContains (jsToLower query) "quarter")

/-- `generateSQLFromNaturalLanguage` from `openai.ts`. The completion
service is modelled by `llm`: `.error e` is an API failure, `.ok none` a
response with null content, `.ok (some c)` a response with content `c`.
Returns the produced SQL (or the thrown error message) together with a
flag recording whether the completion service was invoked. -/
def generateSQLFromNaturalLanguage (query : String) (_schema : DatabaseSchema)
    (today : Date) (llm : Except String (Option String)) :
    Except String String × Bool :=
  if isEnrollmentOverride query then
    (.ok (handleEnrollmentQuery query today), false)
  else
    match llm with
    | .error e => (.error ("OpenAI API error: " ++ e), true)
    | .ok content => (.ok (stripSQLMarkdown (jsTrim (content.getD ""))), true)

/-! ## Intent Classifier (`determineResultType` in `openai.ts`) -/

/-- The result-shape intent. -/
inductive ResultType where
  | table
  | graph
  deriving DecidableEq, Repr

/-- The fixed visualization keyword list from `determineResultType`. -/
def graphKeywords : List String :=
  ["trend", "over time", "chart", "graph", "plot", "visualization",
   "compare", "comparison", "week by week", "month by month",
   "distribution", "histogram", "pie chart", "bar chart"]

/-- `determineResultType` from `openai.ts`: first keyword match returns
`graph`, otherwise `table`. -/
def determineResultType (query : String) : ResultType :=
  let queryLower := jsToLower query
  if graphKeywords.any (fun keyword => strContains queryLower keyword) then
    ResultType.graph
  else
    ResultType.table

/-! ## Visualization Synthesizer (`openai.ts`) -/

/-- The parsed JSON specification the visualization LLM may return; every
field is optional because the response is unvalidated JSON. -/
structure VizSpec where
  chartType : Option String := none
  title : Option String := none
  subtitle : Option String := none
  xAxisLabel : Option String := none
  yAxisLabel : Option String := none
  xAxisKey : Option String := none
  series : Option (List SeriesConfig) := none
  data : Option (List Row) := none
  insights : Option String := none
  recommendedFilters : Option (List String) := none
  deriving DecidableEq, Repr

/-- Outcome of the visualization completion call: the API threw, the
response had null content, the content failed `JSON.parse`, or it parsed
to a `VizSpec`. -/
inductive LLMVizResponse where
  | apiError
  | noContent
  | unparsable
  | parsed (spec : VizSpec)
  deriving DecidableEq, Repr

/-- Whether a column name triggers the fallback heuristic's date/time
detection (`fallbackVisualization` in `openai.ts`). -/
def isDateish (col : String) : Bool :=
  strContains (jsToLower col) "date" || strContains (jsToLower col) "time" ||
    strContains (jsToLower col) "month" || strContains (jsToLower col) "year"

/-- The value column the fallback heuristic plots:
`columns.length > 1 ? columns[1] : columns[0]`. An empty column list makes
it JavaScript `undefined`, which the template literal renders as the text
"undefined". -/
def fallbackDataField (columns : List String) : String :=
  (if columns.length > 1 then columns[1]? else columns[0]?).getD "undefined"

/-- `fallbackVisualization` from `openai.ts`: the deterministic chart-shape
heuristic used when the generative path is unavailable or malformed. -/
def fallbackVisualization (queryResult : QueryResult) : GraphResult :=
  let columns := queryResult.columns
  let dataField := fallbackDataField columns
  let potentialDateColumns := columns.filter isDateish
  let chartType := if potentialDateColumns.isEmpty then "bar" else "line"
  let xAxisKey :=
    if potentialDateColumns.isEmpty then jsStrOr columns.head? "category"
    else potentialDateColumns.head?.getD "category"
  { chartType := chartType,
    title := dataField ++ " by " ++ xAxisKey,
    xAxis := xAxisKey,
    yAxis := dataField,
    xAxisKey := some xAxisKey,
    series := some [{ dataKey := dataField, name := dataField, color := "#8884d8" }],
    processedData := some queryResult.rows,
    rawData := some queryResult.rows }

/-- The zero-row sentinel returned before any completion call. -/
def noDataGraphResult : GraphResult :=
  { chartType := "none", title := "No Data Available", xAxis := "Category",
    yAxis := "Value", labels := some [], values := some [], rawData := some [] }

/-- `generateVisualizationFromData` from `openai.ts`. The completion call's
outcome is the explicit `llm` parameter; the returned flag records whether
the completion service was invoked. The required-field validation mirrors
the JavaScript truthiness tests `!spec.chartType || !spec.data`. -/
def generateVisualizationFromData (query : String) (queryResult : QueryResult)
    (llm : LLMVizResponse) : GraphResult × Bool :=
  if queryResult.rows.length = 0 then
    (noDataGraphResult, false)
  else
    let result :=
      match llm with
      | .apiError => fallbackVisualization queryResult
      | .noContent => fallbackVisualization queryResult
      | .unparsable => fallbackVisualization queryResult
      | .parsed spec =>
        if jsFalsyStr spec.chartType || spec.data.isNone then
          fallbackVisualization queryResult
        else
          { chartType := spec.chartType.getD "",
            title := jsStrOr spec.title "Data Visualization",
            subtitle := spec.subtitle,
            xAxis := jsStrOr spec.xAxisLabel "",
            yAxis := jsStrOr spec.yAxisLabel "",
            xAxisKey := spec.xAxisKey,
            series := some (spec.series.getD []),
            processedData := spec.data,
            rawData := some queryResult.rows,
            insights := spec.insights,
            recommendedFilters := some (spec.recommendedFilters.getD []) }
    (result, true)

/-! ## PostgreSQL connector lifecycle (`src/lib/database/postgresql.ts`)

The `pg` driver itself is external to the repository; its pool is modelled
as a flag, its `end()` as an always-succeeding effect, and the outcome of
`pool.connect()` as an explicit parameter. -/

/-- Connector state: `client` is whether `this.client` is non-null,
`poolEnded` whether `pool.end()` has been awaited. -/
structure PGState where
  client : Bool := false
  poolEnded : Bool := false
  deriving DecidableEq, Repr

/-- `isConnected` from `postgresql.ts`: `this.client !== null`. -/
def PGState.isConnected (s : PGState) : Bool :=
  s.client

/-- `connect` from `postgresql.ts`: on success the client is stored; on
failure a wrapped `DatabaseError` is thrown and the client stays null. -/
def pgConnect (s : PGState) (poolResult : Except String Unit) :
    Except String Unit × PGState :=
  match poolResult with
  | .ok _ => (.ok (), { s with client := true })
  | .error e => (.error ("Failed to connect to PostgreSQL: " ++ e), s)

/-- The state effect of `disconnect` from `postgresql.ts`: release the
client if present, null it out, and the pool ends up ended. The outcome
the call reports (including the pool's own failure on a repeated `end()`)
is modelled by `pgDisconnectOp`; on a pool that has not been ended yet the
two agree (`pgDisconnectOp_fresh`), which is the situation on every
`processQuery` path, where a fresh connector is disconnected at most once. -/
def pgDisconnect (_s : PGState) : PGState :=
  { client := false, poolEnded := true }

/-- Models the external pg driver's `Pool.end()`: the first call resolves
and marks the pool ended; a repeated call rejects with
"Called end on pool more than once" and changes nothing. -/
def poolEnd (s : PGState) : Except String Unit × PGState :=
  if s.poolEnded then (.error "Called end on pool more than once", s)
  else (.ok (), { s with poolEnded := true })

/-- `disconnect` from `postgresql.ts` with its reported outcome: release
the client if present and null it out, then `await this.pool.end()` with
no guard — so the pool's double-end rejection propagates to the caller. -/
def pgDisconnectOp (s : PGState) : Except String Unit × PGState :=
  let s1 := if s.client then { s with client := false } else s
  poolEnd s1

/-! ## Query Orchestrator (`src/lib/query-processor.ts`) -/

/-- The untyped `data` payload of a `QueryResponse`: the empty object on
failure, a table or a graph on success. -/
inductive ResponseData where
  | empty
  | table (t : TableResult)
  | graph (g : GraphResult)
  deriving DecidableEq, Repr

/-- The `debug` block of a `QueryResponse`. -/
structure DebugInfo where
  executedQuery : String
  rowCount : Nat
  deriving DecidableEq, Repr

/-- `QueryResponse` from `query-processor.ts`. -/
structure QueryResponse where
  resultType : ResultType
  data : ResponseData
  sql : Option String := none
  message : Option String := none
  debug : Option DebugInfo := none
  deriving DecidableEq, Repr

/-- Outcomes of the orchestrator's effectful collaborators for one request:
the pool connection, schema introspection, the SQL completion call, SQL
execution, and the visualization completion call. -/
structure PipelineEnv where
  connectResult : Except String Unit
  schemaResult : Except String DatabaseSchema
  sqlLLM : Except String (Option String)
  execResult : Except String QueryResult
  vizLLM : LLMVizResponse

/-- The error-message sanitization in `processQuery`'s catch block:
substring classification of the lower-cased error text into a fixed set of
categorical messages, defaulting to "Database query failed". -/
def sanitizeErrorMessage (error : String) : String :=
  let errorStr := jsToLower error
  if strContains errorStr "syntax error" then "SQL syntax error"
  else if strContains errorStr "permission denied" ||
      strContains errorStr "authentication failed" then "Database access error"
  else if strContains errorStr "timeout" then "Database query timeout"
  else if strContains errorStr "relation" &&
      strContains errorStr "does not exist" then "Requested table does not exist"
  else if strContains errorStr "column" &&
      strContains errorStr "does not exist" then "Requested column does not exist"
  else "Database query failed"

/-- JavaScript `String(error)` for a thrown `Error` object carrying
`message`. -/
def jsErrorString (message : String) : String :=
  "Error: " ++ message

/-- The `try` block of `processQuery`: connect, introspect the schema,
classify the intent, synthesize SQL, execute it and format the result,
short-circuiting on the first failure. Returns the thrown error or the
success response, together with the connector state reached. Error texts
are wrapped exactly as the PostgreSQL connector wraps them. -/
def runPipeline (query : String) (env : PipelineEnv) (today : Date) :
    Except String QueryResponse × PGState :=
  match pgConnect {} env.connectResult with
  | (.error e, st) => (.error e, st)
  | (.ok _, st) =>
    match env.schemaResult with
    | .error e => (.error ("Failed to get schema: " ++ e), st)
    | .ok schema =>
      let resultType := determineResultType query
      match (generateSQLFromNaturalLanguage query schema today env.sqlLLM).1 with
      | .error e => (.error e, st)
      | .ok sql =>
        match env.execResult with
        | .error e => (.error ("Query execution failed: " ++ e), st)
        | .ok queryResult =>
          let formattedResult :=
            if resultType = ResultType.graph then
              ResponseData.graph (generateVisualizationFromData query queryResult env.vizLLM).1
            else
              ResponseData.table (formatForTable queryResult)
          (.ok { resultType := resultType, data := formattedResult, sql := some sql,
                 debug := some { executedQuery := sql,
                                 rowCount := queryResult.rows.length } }, st)

/-- The observable outcome of one `processQuery` call: the response, how
many times `disconnect` was invoked, and the final connector state. -/
structure ProcessOutcome where
  response : QueryResponse
  disconnectCount : Nat
  finalState : PGState
  deriving DecidableEq, Repr

/-- `processQuery` from `query-processor.ts`: run the pipeline, map any
thrown error to the sanitized failure response in the catch block, and in
the finally block disconnect when (and only when) `isConnected()`. -/
def processQuery (query : String) (env : PipelineEnv) (today : Date) :
    ProcessOutcome :=
  let (result, st) := runPipeline query env today
  let response :=
    match result with
    | .ok response => response
    | .error e =>
      { resultType := ResultType.table, data := ResponseData.empty,
        message := some (sanitizeErrorMessage (jsErrorString e)),
        debug := some { executedQuery := "Error executing query", rowCount := 0 } }
  if st.isConnected then
    { response := response, disconnectCount := 1, finalState := pgDisconnect st }
  else
    { response := response, disconnectCount := 0, finalState := st }

/-- Boolean success test on an `Except`. -/
def isOkE {α : Type} (r : Except String α) : Bool :=
  match r with
  | .ok _ => true
  | .error _ => false

/-- The dataKey/processedData coherence invariant claimed for
`GraphResult`: every series' `dataKey` is a key of every element of
`processedData`. -/
def seriesKeysOk (g : GraphResult) : Bool :=
  (g.series.getD []).all (fun sc =>
    (g.processedData.getD []).all (fun row =>
      row.any (fun p => p.1 == sc.dataKey)))

deriving instance DecidableEq for Except

/-! ## Concrete inputs used by counterexamples and witnesses -/

/-- An error text matching both the `syntax error` and the
`authentication failed` classification patterns. -/
def c2CexErrText : String :=
  "syntax error while reporting: password authentication failed for user \"admin\""

/-- Pipeline environment whose SQL execution fails with `c2CexErrText`. -/
def c2CexEnv : PipelineEnv :=
  { connectResult := .ok (), schemaResult := .ok ⟨[]⟩,
    sqlLLM := .ok (some "SELECT 1"), execResult := .error c2CexErrText,
    vizLLM := .noContent }

/-- Pipeline environment whose SQL execution fails with the canonical
PostgreSQL authentication error. -/
def c2WitEnv : PipelineEnv :=
  { connectResult := .ok (), schemaResult := .ok ⟨[]⟩,
    sqlLLM := .ok (some "SELECT 1"),
    execResult := .error "password authentication failed for user \"admin\"",
    vizLLM := .noContent }

/-- Pipeline environment whose pool connection fails. -/
def c4CexEnv : PipelineEnv :=
  { connectResult := .error "Connection failed", schemaResult := .ok ⟨[]⟩,
    sqlLLM := .ok none, execResult := .ok ⟨[], []⟩, vizLLM := .noContent }

/-- A parsed visualization spec that passes the required-field check while
naming a series `dataKey` absent from its `data` records. -/
def c9CexSpec : VizSpec :=
  { chartType := some "bar", data := some [[]],
    series := some [{ dataKey := "missing", name := "Missing", color := "#ff0000" }] }

/-- A one-row query result for the C9 counterexample. -/
def c9CexQueryResult : QueryResult :=
  ⟨["a"], [[("a", Value.vNum 1)]]⟩

/-- The start date of the enrollment override as the code computes it,
stated with calendar-month arithmetic: one JavaScript calendar month back
for "month", three for "quarter" (only when "month" is absent), and seven
days back otherwise. -/
def enrollmentStart (query : String) (today : Date) : Date :=
  if strContains (jsToLower query) "month" then jsSetMonth today (today.month - 1)
  else if strContains (jsToLower query) "quarter" then jsSetMonth today (today.month - 3)
  else Date.addDays today (-7)

/-- The fixed set of user-safe categorical messages of the orchestrator's
catch block. -/
def sanitizedMessages : List String :=
  ["SQL syntax error", "Database access error", "Database query timeout",
   "Requested table does not exist", "Requested column does not exist",
   "Database query failed"]

/-! ## Supporting lemmas -/

theorem listStarts_iff (sub l : List Char) : listStarts sub l = true ↔ sub <+: l := by
  induction sub generalizing l with
  | nil => simp [listStarts]
  | cons a as ih =>
    cases l with
    | nil => simp [listStarts]
    | cons b bs => simp [listStarts, List.cons_prefix_cons, ih, And.comm]

theorem listInfix_iff (sub l : List Char) : listInfix sub l = true ↔ sub <:+: l := by
  induction l with
  | nil => simp [listInfix, listStarts_iff]
  | cons b bs ih =>
    rw [List.infix_cons_iff]
    simp [listInfix, listStarts_iff, ih]

theorem strContains_iff (s sub : String) :
    strContains s sub = true ↔ sub.data <:+: s.data :=
  listInfix_iff sub.data s.data

theorem strContains_trans {s p q : String} (h1 : strContains s p = true)
    (h2 : strContains p q = true) : strContains s q = true := by
  rw [strContains_iff] at h1 h2 ⊢
  exact h2.trans h1

theorem strContains_length {s sub : String} (h : strContains s sub = true) :
    sub.length ≤ s.length := by
  rw [strContains_iff] at h
  exact h.length_le

theorem jsToLower_length (s : String) : (jsToLower s).length = s.length :=
  List.length_map s.data Char.toLower

theorem civilToDays_day_add (y m d n : Int) :
    civilToDays y m (d + n) = civilToDays y m d + n := by
  simp only [civilToDays]
  ring

theorem jsSetDate_addDays (dt : Date) (n : Int) :
    jsSetDate dt (dt.day - n) = dt.addDays (-n) := by
  unfold jsSetDate Date.addDays Date.toEpochDays
  rw [sub_eq_add_neg, civilToDays_day_add]

theorem head?_filter {α : Type} (p : α → Bool) (l : List α) :
    (l.filter p).head? = l.find? p := by
  induction l with
  | nil => rfl
  | cons a as ih =>
    by_cases h : p a = true
    · simp [List.filter_cons, h]
    · simp only [Bool.not_eq_true] at h
      simp [List.filter_cons, h, ih]

theorem sanitize_mem (e : String) : sanitizeErrorMessage e ∈ sanitizedMessages := by
  simp only [sanitizeErrorMessage, sanitizedMessages]
  split_ifs <;> simp

theorem sanitize_length_le (e : String) : (sanitizeErrorMessage e).length ≤ 31 := by
  have h := sanitize_mem e
  simp only [sanitizedMessages, List.mem_cons, List.not_mem_nil, or_false] at h
  rcases h with h | h | h | h | h | h <;> rw [h] <;> decide

theorem pgDisconnectOp_fresh (s : PGState) (h : s.poolEnded = false) :
    pgDisconnectOp s = (.ok (), pgDisconnect s) := by
  obtain ⟨c, p⟩ := s
  subst h
  cases c <;> decide

theorem fallbackDataField_mem (columns : List String) (h : columns ≠ []) :
    fallbackDataField columns ∈ columns := by
  match columns with
  | [] => exact absurd rfl h
  | [a] => simp [fallbackDataField]
  | a :: b :: rest => simp [fallbackDataField]

/-! ## Claim theorems -/

/-- C5: the Intent Classifier `determineResultType` is a pure function that
returns `graph` exactly when the lower-cased query contains at least one
keyword of its fixed visualization keyword set (which includes "trend",
"chart", "compare", "distribution", "week by week" and "pie chart"), and
returns `table` exactly when the query contains none of them. -/
theorem claim_C5 :
    (∀ query : String, determineResultType query = ResultType.graph ↔
      ∃ k ∈ graphKeywords, strContains (jsToLower query) k = true) ∧
    (∀ query : String, determineResultType query = ResultType.table ↔
      ∀ k ∈ graphKeywords, strContains (jsToLower query) k = false) ∧
    ("trend" ∈ graphKeywords ∧ "chart" ∈ graphKeywords ∧
     "compare" ∈ graphKeywords ∧ "distribution" ∈ graphKeywords ∧
     "week by week" ∈ graphKeywords ∧ "pie chart" ∈ graphKeywords) := by
  refine ⟨?_, ?_, by decide⟩
  · intro query
    simp only [determineResultType]
    cases hb : graphKeywords.any (fun keyword => strContains (jsToLower query) keyword) with
    | true =>
      simp only [List.any_eq_true] at hb
      simpa using hb
    | false =>
      have hb2 : ¬ ∃ k ∈ graphKeywords, strContains (jsToLower query) k = true := by
        rw [← List.any_eq_true, hb]
        simp
      simpa using hb2
  · intro query
    simp only [determineResultType]
    cases hb : graphKeywords.any (fun keyword => strContains (jsToLower query) keyword) with
    | true =>
      simp only [List.any_eq_true] at hb
      obtain ⟨k, hk, hck⟩ := hb
      simp only [if_true, reduceIte]
      constructor
      · intro hc
        cases hc
      · intro hall
        rw [hall k hk] at hck
        cases hck
    | false =>
      simp only [Bool.false_eq_true, reduceIte, true_iff]
      intro k hk
      cases hck : strContains (jsToLower query) k with
      | true =>
        have : graphKeywords.any (fun keyword => strContains (jsToLower query) keyword) = true :=
          List.any_eq_true.mpr ⟨k, hk, hck⟩
        rw [this] at hb
        cases hb
      | false => rfl

/-- C5 witness: a query containing "pie chart" classifies as `graph`. -/
theorem claim_C5_witness :
    determineResultType "show me a pie chart of sales" = ResultType.graph :=
  (claim_C5.1 "show me a pie chart of sales").mpr ⟨"pie chart", by decide, by decide⟩

/-- C3: on every path of the Visualization Synthesizer — zero-row sentinel,
successful generative mapping, and every fallback branch — the returned
`GraphResult.rawData` is exactly the input rows, unmodified. -/
theorem claim_C3 :
    ∀ (query : String) (qr : QueryResult) (llm : LLMVizResponse),
      ((generateVisualizationFromData query qr llm).1).rawData = some qr.rows := by
  intro query qr llm
  unfold generateVisualizationFromData
  by_cases h : qr.rows.length = 0
  · have h0 : qr.rows = [] := List.length_eq_zero.mp h
    simp [h, h0, noDataGraphResult]
  · simp only [h, reduceIte, if_neg h]
    cases llm with
    | apiError => simp [fallbackVisualization]
    | noContent => simp [fallbackVisualization]
    | unparsable => simp [fallbackVisualization]
    | parsed spec =>
      by_cases hf : (jsFalsyStr spec.chartType || spec.data.isNone) = true
      · simp [hf, fallbackVisualization]
      · simp [hf, fallbackVisualization]

/-- C6: on a zero-row `QueryResult` the Visualization Synthesizer returns
the sentinel (`chartType` "none", title "No Data Available", empty labels,
values and rawData) and does not invoke the completion service. -/
theorem claim_C6 :
    ∀ (query : String) (qr : QueryResult) (llm : LLMVizResponse),
      qr.rows = [] →
      generateVisualizationFromData query qr llm =
        ({ chartType := "none", title := "No Data Available", xAxis := "Category",
           yAxis := "Value", labels := some [], values := some [],
           rawData := some [] }, false) := by
  intro query qr llm h
  unfold generateVisualizationFromData noDataGraphResult
  simp [h]

/-- C6 witness: the sentinel at a concrete empty result, with the
completion-call flag false. -/
theorem claim_C6_witness :
    generateVisualizationFromData "trend of enrollments" ⟨["a"], []⟩ LLMVizResponse.apiError =
      ({ chartType := "none", title := "No Data Available", xAxis := "Category",
         yAxis := "Value", labels := some [], values := some [],
         rawData := some [] }, false) :=
  claim_C6 "trend of enrollments" ⟨["a"], []⟩ LLMVizResponse.apiError rfl

/-- C8 counterexample: the first `disconnect` call on a connected
connector succeeds, but a second call rejects with the pg pool's
double-end error, because `disconnect` awaits `pool.end()` unguarded. -/
theorem claim_C8_counterexample :
    (pgDisconnectOp { client := true }).1 = .ok () ∧
    (pgDisconnectOp (pgDisconnectOp { client := true }).2).1 =
      .error "Called end on pool more than once" := by decide

/-- C8 (amended): `disconnect` succeeds whenever the pool has not yet been
ended — in particular on its first call, and on a never-connected
connector — and always leaves the connector disconnected; its state effect
is idempotent (a second call changes no state). The reported outcome is
not idempotent: a second call fails with the pool's double-end rejection. -/
theorem claim_C8_theorem :
    (∀ s : PGState, s.poolEnded = false → (pgDisconnectOp s).1 = .ok ()) ∧
    (∀ s : PGState, ((pgDisconnectOp s).2).isConnected = false) ∧
    (∀ s : PGState, (pgDisconnectOp (pgDisconnectOp s).2).2 = (pgDisconnectOp s).2) ∧
    (pgDisconnectOp {}).1 = .ok () := by
  refine ⟨?_, ?_, ?_, by decide⟩
  · intro s h
    obtain ⟨c, p⟩ := s
    subst h
    cases c <;> decide
  · intro s
    obtain ⟨c, p⟩ := s
    cases c <;> cases p <;> decide
  · intro s
    obtain ⟨c, p⟩ := s
    cases c <;> cases p <;> decide

/-- C7: the Fallback Heuristic is a pure function (no completion-service
parameter at all), so two calls on the same `QueryResult` agree; it charts
the first column against the second as `bar`, unless some column name
contains "date"/"time"/"month"/"year" (case-insensitive), in which case the
first such column becomes `xAxisKey` and the chart type is `line`; it
always builds exactly one `SeriesConfig` from the detected value column. -/
theorem claim_C7 :
    ∀ qr : QueryResult,
      fallbackVisualization qr = fallbackVisualization qr ∧
      ((∀ c ∈ qr.columns, isDateish c = false) →
        (fallbackVisualization qr).chartType = "bar" ∧
        (fallbackVisualization qr).xAxisKey = some (jsStrOr qr.columns.head? "category")) ∧
      (∀ c₀ : String, qr.columns.find? isDateish = some c₀ →
        (fallbackVisualization qr).chartType = "line" ∧
        (fallbackVisualization qr).xAxisKey = some c₀) ∧
      (fallbackVisualization qr).series =
        some [{ dataKey := fallbackDataField qr.columns,
                name := fallbackDataField qr.columns, color := "#8884d8" }] := by
  intro qr
  refine ⟨rfl, ?_, ?_, rfl⟩
  · intro hall
    have hfil : qr.columns.filter isDateish = [] := by
      rw [List.filter_eq_nil_iff]
      intro c hc
      simp [hall c hc]
    simp [fallbackVisualization, hfil]
  · intro c₀ hfind
    have hh : (qr.columns.filter isDateish).head? = some c₀ := by
      rw [head?_filter]
      exact hfind
    have hne : (qr.columns.filter isDateish).isEmpty = false := by
      cases hfl : qr.columns.filter isDateish with
      | nil => rw [hfl] at hh; cases hh
      | cons x xs => simp
    simp [fallbackVisualization, hne, hh]

/-- C7 witness: concrete bar and line classifications through the claim's
statement. -/
theorem claim_C7_witness :
    (fallbackVisualization ⟨["name", "count"], []⟩).chartType = "bar" ∧
    (fallbackVisualization ⟨["signup_date", "count"], []⟩).chartType = "line" :=
  ⟨((claim_C7 ⟨["name", "count"], []⟩).2.1 (by decide)).1,
   ((claim_C7 ⟨["signup_date", "count"], []⟩).2.2.1 "signup_date" (by decide)).1⟩

/-- C9 counterexample: on the generative path the series/processedData
coherence invariant is not enforced — a parsed spec passing the
required-field check may name a `dataKey` absent from its data records,
and the pipeline returns it as-is. -/
theorem claim_C9_counterexample :
    seriesKeysOk ((generateVisualizationFromData "chart of a" c9CexQueryResult
      (LLMVizResponse.parsed c9CexSpec)).1) = false := by decide

/-- C9 (amended): for GraphResults produced by the fallback heuristic from
a well-formed `QueryResult` (nonempty column list, every row carrying every
column name as a key), each `SeriesConfig.dataKey` is a key of every
element of `processedData`; the generative path does not enforce this. -/
theorem claim_C9_theorem :
    ∀ qr : QueryResult, qr.columns ≠ [] →
      (∀ row ∈ qr.rows, ∀ c ∈ qr.columns, row.any (fun p => p.1 == c) = true) →
      seriesKeysOk (fallbackVisualization qr) = true := by
  intro qr hne hkeys
  simp only [seriesKeysOk, fallbackVisualization, Option.getD_some, List.all_cons,
    List.all_nil, Bool.and_true, List.all_eq_true]
  intro row hrow
  exact hkeys row hrow _ (fallbackDataField_mem qr.columns hne)

/-- C9 witness: the amended invariant at a concrete two-column result. -/
theorem claim_C9_witness :
    seriesKeysOk (fallbackVisualization
      ⟨["name", "count"],
       [[("name", Value.vStr "a"), ("count", Value.vNum 1)]]⟩) = true :=
  claim_C9_theorem ⟨["name", "count"],
    [[("name", Value.vStr "a"), ("count", Value.vNum 1)]]⟩ (by decide) (by decide)

/-- C10: the enrollment override tests "month" before "quarter", with the
one-week window as the default: "month" (even together with "quarter")
selects the one-month start, "quarter" without "month" selects the
three-month start, and neither selects today minus seven days. -/
theorem claim_C10 :
    ∀ (query : String) (today : Date),
      (strContains (jsToLower query) "month" = true →
        handleEnrollmentQuery query today =
          enrollmentSQLTemplate (formatDate (jsSetMonth today (today.month - 1)))
            (formatDate today) (activeClause query)) ∧
      (strContains (jsToLower query) "month" = false →
        strContains (jsToLower query) "quarter" = true →
        handleEnrollmentQuery query today =
          enrollmentSQLTemplate (formatDate (jsSetMonth today (today.month - 3)))
            (formatDate today) (activeClause query)) ∧
      (strContains (jsToLower query) "month" = false →
        strContains (jsToLower query) "quarter" = false →
        handleEnrollmentQuery query today =
          enrollmentSQLTemplate (formatDate (today.addDays (-7)))
            (formatDate today) (activeClause query)) := by
  intro query today
  refine ⟨fun hm => ?_, fun hm hq => ?_, fun hm hq => ?_⟩
  · simp [handleEnrollmentQuery, hm]
  · simp [handleEnrollmentQuery, hm, hq]
  · simp [handleEnrollmentQuery, hm, hq, jsSetDate_addDays]

/-- C10 witness: with both "month" and "quarter" present the one-month
window wins, and a plain "week" query gets the seven-day window. -/
theorem claim_C10_witness :
    handleEnrollmentQuery "enrollments this month vs last quarter" ⟨2026, 3, 15⟩ =
      enrollmentSQLTemplate "2026-02-15" "2026-03-15" "" ∧
    handleEnrollmentQuery "enrollments this week" ⟨2026, 3, 15⟩ =
      enrollmentSQLTemplate "2026-03-08" "2026-03-15" "" := by
  constructor
  · have h := (claim_C10 "enrollments this month vs last quarter" ⟨2026, 3, 15⟩).1 (by decide)
    rw [h]
    decide
  · have h := (claim_C10 "enrollments this week" ⟨2026, 3, 15⟩).2.2 (by decide) (by decide)
    rw [h]
    decide

/-- C1 counterexample: at today = 2026-03-15, a "month" enrollment query
produces a start date of 2026-02-15 (one calendar month back), not
today minus 30 days (2026-02-13) as the claim states. -/
theorem claim_C1_counterexample :
    (generateSQLFromNaturalLanguage "show enrollments from last month" ⟨[]⟩
        ⟨2026, 3, 15⟩ (.ok none)).1 =
      .ok (enrollmentSQLTemplate "2026-02-15" "2026-03-15" "") ∧
    formatDate (Date.addDays ⟨2026, 3, 15⟩ (-30)) = "2026-02-13" ∧
    (generateSQLFromNaturalLanguage "show enrollments from last month" ⟨[]⟩
        ⟨2026, 3, 15⟩ (.ok none)).1 ≠
      .ok (enrollmentSQLTemplate (formatDate (Date.addDays ⟨2026, 3, 15⟩ (-30)))
        "2026-03-15" "") := by decide

/-- C1 (amended): every enrollment query with a temporal term takes the
deterministic override — no completion call — and yields the fixed-shape
enrollment SQL whose start date is one JavaScript calendar month back for
"month", three calendar months back for "quarter" (without "month"), and
today minus seven days otherwise, with the status filter appended exactly
when the query contains "active". -/
theorem claim_C1_theorem :
    ∀ (query : String) (schema : DatabaseSchema) (today : Date)
      (llm : Except String (Option String)),
      strContains (jsToLower query) "enrollment" = true →
      (strContains (jsToLower query) "week" || strContains (jsToLower query) "month" ||
        strContains (jsToLower query) "quarter") = true →
      generateSQLFromNaturalLanguage query schema today llm =
        (.ok (enrollmentSQLTemplate (formatDate (enrollmentStart query today))
          (formatDate today) (activeClause query)), false) := by
  intro query schema today llm h1 h2
  have hov : isEnrollmentOverride query = true := by
    unfold isEnrollmentOverride
    rw [h1, h2]
    rfl
  unfold generateSQLFromNaturalLanguage
  rw [hov]
  simp only [reduceIte]
  unfold handleEnrollmentQuery enrollmentStart
  by_cases hm : strContains (jsToLower query) "month" = true
  · simp [hm]
  · simp only [Bool.not_eq_true] at hm
    by_cases hq : strContains (jsToLower query) "quarter" = true
    · simp [hm, hq]
    · simp only [Bool.not_eq_true] at hq
      simp [hm, hq, jsSetDate_addDays]

/-- C1 witness: the override at a concrete "active … week" query. -/
theorem claim_C1_witness :
    generateSQLFromNaturalLanguage "active enrollments this week" ⟨[]⟩
        ⟨2026, 3, 15⟩ (.ok none) =
      (.ok (enrollmentSQLTemplate
        (formatDate (enrollmentStart "active enrollments this week" ⟨2026, 3, 15⟩))
        (formatDate ⟨2026, 3, 15⟩)
        (activeClause "active enrollments this week")), false) :=
  claim_C1_theorem "active enrollments this week" ⟨[]⟩ ⟨2026, 3, 15⟩ (.ok none)
    (by decide) (by decide)

/-- C4 counterexample: when the pool connection fails, `isConnected()` is
false in the finally block and `disconnect` is never invoked — not once, as
the claim requires on every exit path. -/
theorem claim_C4_counterexample :
    (processQuery "List all users" c4CexEnv ⟨2026, 10, 11⟩).disconnectCount ≠ 1 := by
  decide

/-- C4 (amended): `processQuery` invokes `disconnect` exactly once on every
exit path on which the connection was acquired (success and every
post-connect failure), and zero times when the connection itself fails; on
every path the connector ends disconnected. -/
theorem claim_C4_theorem :
    ∀ (query : String) (env : PipelineEnv) (today : Date),
      (processQuery query env today).disconnectCount =
        (if isOkE env.connectResult then 1 else 0) ∧
      ((processQuery query env today).finalState).isConnected = false := by
  intro query env today
  unfold processQuery runPipeline pgConnect
  cases hc : env.connectResult with
  | error e => simp [hc, PGState.isConnected, isOkE]
  | ok u =>
    cases hs : env.schemaResult with
    | error e => simp [hc, hs, PGState.isConnected, isOkE, pgDisconnect]
    | ok schema =>
      cases hg : (generateSQLFromNaturalLanguage query schema today env.sqlLLM).1 with
      | error e => simp [hc, hs, hg, PGState.isConnected, isOkE, pgDisconnect]
      | ok sql =>
        cases he : env.execResult with
        | error e2 => simp [hc, hs, hg, he, PGState.isConnected, isOkE, pgDisconnect]
        | ok qres => simp [hc, hs, hg, he, PGState.isConnected, isOkE, pgDisconnect]

/-- C2 counterexample: an underlying error containing both "syntax error"
and `password authentication failed for user "admin"` is classified by the
earlier pattern, so the response message is "SQL syntax error", not
"Database access error" as the claim requires for every error containing
the authentication phrase. -/
theorem claim_C2_counterexample :
    strContains (jsToLower c2CexErrText)
      "password authentication failed for user \"admin\"" = true ∧
    (processQuery "list users" c2CexEnv ⟨2026, 10, 11⟩).response.message ≠
      some "Database access error" ∧
    (processQuery "list users" c2CexEnv ⟨2026, 10, 11⟩).response.message =
      some "SQL syntax error" := by decide

/-- C2 (amended): whenever any pipeline component fails, `processQuery`
returns resultType `table`, empty data, debug `"Error executing query"` /
rowCount 0, and a message from the fixed six-message set, chosen by
first-match substring classification of the lower-cased error text in
source order (syntax error; permission denied / authentication failed;
timeout; relation + does not exist; column + does not exist), anything
unmatched mapping to "Database query failed"; an error containing
`password authentication failed for user "admin"` that does not match the
earlier "syntax error" pattern maps to "Database access error"; no
sanitized message ever contains "password" or "admin", and the original
text of any error containing the authentication phrase is never included
in the message. -/
theorem claim_C2_theorem :
    (∀ (query : String) (env : PipelineEnv) (today : Date) (e : String),
      (runPipeline query env today).1 = .error e →
      (processQuery query env today).response =
        { resultType := ResultType.table, data := ResponseData.empty,
          message := some (sanitizeErrorMessage (jsErrorString e)),
          debug := some { executedQuery := "Error executing query",
                          rowCount := 0 } }) ∧
    (∀ e : String, sanitizeErrorMessage e ∈ sanitizedMessages) ∧
    (∀ e : String,
      strContains (jsToLower e) "syntax error" = false →
      strContains (jsToLower e) "permission denied" = false →
      strContains (jsToLower e) "authentication failed" = false →
      strContains (jsToLower e) "timeout" = false →
      (strContains (jsToLower e) "relation" = false ∨
        strContains (jsToLower e) "does not exist" = false) →
      (strContains (jsToLower e) "column" = false ∨
        strContains (jsToLower e) "does not exist" = false) →
      sanitizeErrorMessage e = "Database query failed") ∧
    (∀ e : String,
      strContains (jsToLower e)
        "password authentication failed for user \"admin\"" = true →
      strContains (jsToLower e) "syntax error" = false →
      sanitizeErrorMessage e = "Database access error") ∧
    (∀ e : String,
      strContains (sanitizeErrorMessage e) "password" = false ∧
      strContains (sanitizeErrorMessage e) "admin" = false) ∧
    (∀ e : String,
      strContains (jsToLower e)
        "password authentication failed for user \"admin\"" = true →
      strContains (sanitizeErrorMessage e) e = false) := by
  refine ⟨?_, sanitize_mem, ?_, ?_, ?_, ?_⟩
  · intro query env today e h
    cases hrp : runPipeline query env today with
    | mk r st =>
      rw [hrp] at h
      simp only at h
      subst h
      unfold processQuery
      rw [hrp]
      by_cases hc : st.isConnected = true <;> simp [hc]
  · intro e h1 h2 h3 h4 h5 h6
    simp only [sanitizeErrorMessage, h1, h2, h3, h4]
    rcases h5 with h5 | h5 <;> rcases h6 with h6 | h6 <;> simp [h5, h6]
  · intro e hp hs
    have hauth : strContains (jsToLower e) "authentication failed" = true :=
      strContains_trans hp (by decide)
    simp [sanitizeErrorMessage, hs, hauth]
  · intro e
    have h := sanitize_mem e
    simp only [sanitizedMessages, List.mem_cons, List.not_mem_nil, or_false] at h
    rcases h with h | h | h | h | h | h <;> rw [h] <;> exact ⟨by decide, by decide⟩
  · intro e hp
    have hlen :
        ("password authentication failed for user \"admin\"" : String).length ≤
          (jsToLower e).length := strContains_length hp
    rw [jsToLower_length] at hlen
    have h47 :
        ("password authentication failed for user \"admin\"" : String).length = 47 := by
      decide
    cases hc : strContains (sanitizeErrorMessage e) e with
    | false => rfl
    | true =>
      have hle := strContains_length hc
      have hb := sanitize_length_le e
      omega

/-- C2 witness: the canonical PostgreSQL authentication failure maps to
"Database access error" through the orchestrator. -/
theorem claim_C2_witness :
    (processQuery "list users" c2WitEnv ⟨2026, 10, 11⟩).response.message =
      some "Database access error" := by
  have h1 := claim_C2_theorem.1 "list users" c2WitEnv ⟨2026, 10, 11⟩
    "Query execution failed: password authentication failed for user \"admin\""
    (by decide)
  have h2 := claim_C2_theorem.2.2.2.1
    (jsErrorString
      "Query execution failed: password authentication failed for user \"admin\"")
    (by decide) (by decide)
  rw [h1]
  simp only [h2]

end TableStakes
